import Mathlib

/-!
Shallow embedding of the CPU-affinity toolkit (src/main.cpp).

The program parses two command-line integers (a process id and a core
index), queries the number of online processors, bounds-checks the core
index when that count is known, and then invokes the platform affinity
facility.  We model the argument parser (std::stol / std::stoi over
strtol semantics), the Linux and Windows variants of
set_process_affinity, the sentinel-producing get_hardware_concurrency,
and the full control flow of main as a pure function from the argument
list and an environment (core count, syscall outcomes) to an exit code,
the lines printed to the error stream, and the platform call made.
Machine integers are Int / Nat with explicit range tests and wrap-around
where the C++ code converts between widths.
-/

namespace AffinityTool

/-- Whitespace recognised by strtol in the C locale: space, tab, newline,
vertical tab, form feed, carriage return. -/
def isSpaceChar (c : Char) : Bool :=
  c.toNat == 32 || c.toNat == 9 || c.toNat == 10 || c.toNat == 11 ||
  c.toNat == 12 || c.toNat == 13

/-- Value of a list of decimal digits, most significant first. -/
def digitsToNat (ds : List Char) : Nat :=
  ds.foldl (fun a c => a * 10 + (c.toNat - 48)) 0

/-- The two exceptions std::stol / std::stoi can throw. -/
inductive ParseErr where
  | invalidArgument
  | outOfRange
deriving DecidableEq

/-- The integer denoted by the longest valid initial segment of the
string, per strtol base 10: leading whitespace, an optional sign, then
decimal digits; trailing characters are ignored.  none when no digit
follows the optional sign (std::invalid_argument). -/
def parsedIntVal (s : String) : Option Int :=
  let cs := s.toList.dropWhile isSpaceChar
  let signAndRest : Int × List Char :=
    match cs with
    | '-' :: t => (-1, t)
    | '+' :: t => (1, t)
    | t => (1, t)
  let ds := signAndRest.2.takeWhile Char.isDigit
  if ds.isEmpty then none
  else some (signAndRest.1 * (digitsToNat ds : Int))

/-- std::stol on the LP64 build (64-bit signed long): out_of_range when
the denoted value does not fit in [-2^63, 2^63 - 1]. -/
def stol (s : String) : Except ParseErr Int :=
  match parsedIntVal s with
  | none => .error .invalidArgument
  | some v =>
      if v < -(2 ^ 63) ∨ (2 ^ 63 - 1 : Int) < v then .error .outOfRange
      else .ok v

/-- std::stoi (32-bit signed int): out_of_range outside
[-2^31, 2^31 - 1]. -/
def stoi (s : String) : Except ParseErr Int :=
  match parsedIntVal s with
  | none => .error .invalidArgument
  | some v =>
      if v < -(2 ^ 31) ∨ (2 ^ 31 - 1 : Int) < v then .error .outOfRange
      else .ok v

/-- Linux branch of get_hardware_concurrency: sysconf(_SC_NPROCESSORS_ONLN)
returns nprocs; a nonpositive result (including the -1 error return)
degrades to the sentinel 0. -/
def get_hardware_concurrency (nprocs : Int) : Nat :=
  if 0 < nprocs then nprocs.toNat else 0

/-- The five std::cerr lines of print_usage. -/
def usageLines (prog : String) : List String :=
  ["A cross-platform tool to set CPU affinity for a process.",
   "Usage: " ++ prog ++ " <pid> <core_id>",
   "Example (Linux):   sudo " ++ prog ++ " 12345 0",
   "Example (Windows): " ++ prog ++ " 6789 1",
   "\nNote: This tool usually requires administrator/root privileges."]

def invalidArgMsg : String :=
  "Error: Invalid argument. PID and core_id must be integers."

def outOfRangeMsg : String := "Error: Argument is out of range."

/-- The single std::cerr line printed when the core index fails the
bounds check (num_cpus is unsigned, and positive on this path). -/
def coreRangeMsg (core_id : Int) (num_cpus : Nat) : String :=
  "Error: Core ID " ++ toString core_id ++ " is out of range. " ++
  ("Available cores on this system: 0 to " ++ toString (num_cpus - 1) ++ ".")

def privilegeHint : String :=
  "Please ensure the PID is correct and you have sufficient privileges (e.g., run with \x27sudo\x27 or as Administrator)."

/-- The catch-block line wrapping e.what(). -/
def errLine (e : String) : String := "An error occurred: " ++ e

/-- A platform as seen by main: the core count reported by
get_hardware_concurrency, the implicit conversion applied to the parsed
long PID at the set_process_affinity call boundary, and the platform
call itself (success or the what()-string of the thrown
std::runtime_error). -/
structure Platform where
  numCpus : Nat
  pidCast : Int → Int
  call : Int → Int → Except String Unit

/-- Observable outcome of one run of main: the exit code, the lines sent
to std::cerr, and the (pid, core_id) arguments of the
set_process_affinity call when one was made. -/
structure RunResult where
  exitCode : Nat
  stderr : List String
  platformCall : Option (Int × Int)
deriving DecidableEq

/-- The two catch blocks of main around std::stol / std::stoi: each
prints its message followed by the usage text and returns 1. -/
def parseFail (prog : String) : ParseErr → RunResult
  | .invalidArgument => ⟨1, invalidArgMsg :: usageLines prog, none⟩
  | .outOfRange => ⟨1, outOfRangeMsg :: usageLines prog, none⟩

/-- main after both arguments parsed: the bounds check
num_cpus > 0 && (core_id < 0 || (unsigned)core_id >= num_cpus), then the
try block around set_process_affinity. -/
def afterParse (plat : Platform) (pid_long core_id : Int) : RunResult :=
  if 0 < plat.numCpus ∧ (core_id < 0 ∨ plat.numCpus ≤ core_id.toNat) then
    ⟨1, [coreRangeMsg core_id plat.numCpus], none⟩
  else
    match plat.call (plat.pidCast pid_long) core_id with
    | .ok _ => ⟨0, [], some (plat.pidCast pid_long, core_id)⟩
    | .error e =>
        ⟨1, [errLine e, privilegeHint], some (plat.pidCast pid_long, core_id)⟩

/-- The whole of main: argc check, parsing with its two catch blocks,
core-count query, bounds check, platform call. -/
def mainRun (plat : Platform) (prog : String) (args : List String) : RunResult :=
  match args with
  | [arg1, arg2] =>
    match stol arg1 with
    | .error e => parseFail prog e
    | .ok pid_long =>
      match stoi arg2 with
      | .error e => parseFail prog e
      | .ok core_id => afterParse plat pid_long core_id
  | _ => ⟨1, usageLines prog, none⟩

/-- Environment of the Linux variant: the sysconf result and the outcome
of sched_setaffinity (its return value and strerror(errno) text). -/
structure LinuxEnv where
  nprocs : Int
  schedResult : Int
  errnoText : String

def CPU_ZERO : List Int := []

def CPU_SET (cpu : Int) (s : List Int) : List Int := cpu :: s

/-- The cpu_set_t built by the Linux variant: CPU_ZERO then one
CPU_SET(core_id). -/
def linux_cpuset (core_id : Int) : List Int := CPU_SET core_id CPU_ZERO

/-- Linux set_process_affinity: build the one-bit set, call
sched_setaffinity, throw with the strerror text on nonzero return. -/
def linux_set_process_affinity (env : LinuxEnv) (_pid : Int) (core_id : Int) :
    Except String Unit :=
  let _cpuset := linux_cpuset core_id
  if env.schedResult ≠ 0 then
    .error ("sched_setaffinity failed: " ++ env.errnoText)
  else .ok ()

/-- Implicit conversion of the parsed long to 32-bit signed pid_t at the
call boundary: two\x27s-complement wrap-around. -/
def pid_t_cast (x : Int) : Int := Int.bmod x (2 ^ 32)

def linuxPlatform (env : LinuxEnv) : Platform where
  numCpus := get_hardware_concurrency env.nprocs
  pidCast := pid_t_cast
  call := linux_set_process_affinity env

/-- Environment of the Windows variant: dwNumberOfProcessors, whether
OpenProcess succeeds, whether SetProcessAffinityMask succeeds, and the
GetLastError codes reported on each failure. -/
structure WinEnv where
  numProcessors : Nat
  openOk : Bool
  openErrCode : Nat
  setOk : Bool
  setErrCode : Nat

/-- DWORD_PTR affinity_mask = 1ULL << core_id, in the 64-bit word. -/
def win_affinity_mask (core_id : Nat) : Nat := (1 <<< core_id) % 2 ^ 64

/-- Windows set_process_affinity.  First component: the result (success
or the what()-string of the thrown error).  Second component: how many
times CloseHandle ran on that path. -/
def win_set_process_affinity (env : WinEnv) (pid : Int) (core_id : Int) :
    Except String Unit × Nat :=
  if env.openOk = false then
    (.error ("Could not open process with PID " ++ toString pid ++
             ". Error code: " ++ toString env.openErrCode), 0)
  else
    let _mask := win_affinity_mask core_id.toNat
    if env.setOk = false then
      (.error ("Failed to set process affinity mask. Error code: " ++
               toString env.setErrCode), 1)
    else (.ok (), 1)

/-- Implicit conversion long -> unsigned long (32-bit on Windows) of the
PID argument: reduction mod 2^32, so negatives change sign. -/
def ulong_cast (x : Int) : Int := Int.emod x (2 ^ 32)

def winPlatform (env : WinEnv) : Platform where
  numCpus := env.numProcessors
  pidCast := ulong_cast
  call := fun pid core_id => (win_set_process_affinity env pid core_id).1

/-- Fallback variant for any other operating system. -/
def unsupported_set_process_affinity (_pid : Int) (_core_id : Int) :
    Except String Unit :=
  .error "Unsupported operating system."

/-- Bool test: pat occurs as a contiguous segment of s (over the
character lists). -/
def charSegHas (pat : List Char) : List Char → Bool
  | [] => pat.isEmpty
  | c :: cs => pat.isPrefixOf (c :: cs) || charSegHas pat cs

/-- Bool test: the string pat occurs inside the string s. -/
def strHas (s pat : String) : Bool := charSegHas pat.toList s.toList

/-- Reduction of mainRun when std::stol throws. -/
theorem mainRun_err1 (plat : Platform) (prog arg1 arg2 : String) (e : ParseErr)
    (h : stol arg1 = .error e) :
    mainRun plat prog [arg1, arg2] = parseFail prog e := by
  simp only [mainRun, h]

/-- Reduction of mainRun when std::stol succeeds and std::stoi throws. -/
theorem mainRun_err2 (plat : Platform) (prog arg1 arg2 : String) (pid : Int)
    (e : ParseErr) (h1 : stol arg1 = .ok pid) (h2 : stoi arg2 = .error e) :
    mainRun plat prog [arg1, arg2] = parseFail prog e := by
  simp only [mainRun, h1, h2]

/-- Reduction of mainRun when both arguments parse. -/
theorem mainRun_parsed (plat : Platform) (prog arg1 arg2 : String)
    (pid core : Int) (h1 : stol arg1 = .ok pid) (h2 : stoi arg2 = .ok core) :
    mainRun plat prog [arg1, arg2] = afterParse plat pid core := by
  simp only [mainRun, h1, h2]

/-- When the bounds check does not fire, afterParse always reaches the
platform call with the cast pid and the parsed core index. -/
theorem afterParse_platformCall (plat : Platform) (pid_long core_id : Int)
    (h : ¬(0 < plat.numCpus ∧ (core_id < 0 ∨ plat.numCpus ≤ core_id.toNat))) :
    (afterParse plat pid_long core_id).platformCall =
      some (plat.pidCast pid_long, core_id) := by
  unfold afterParse
  rw [if_neg h]
  cases plat.call (plat.pidCast pid_long) core_id <;> rfl

/-- C6: with an argument count other than two, main prints exactly the
usage text to the error stream, exits with code 1, and neither parses
nor makes a platform call. -/
theorem wrong_arg_count_prints_usage (plat : Platform) (prog : String)
    (args : List String) (h : args.length ≠ 2) :
    mainRun plat prog args = ⟨1, usageLines prog, none⟩ := by
  rcases args with _ | ⟨a1, _ | ⟨a2, _ | ⟨a3, t⟩⟩⟩
  · rfl
  · rfl
  · exact absurd rfl h
  · rfl

/-- Witness for C6 at a concrete three-argument invocation. -/
theorem wrong_arg_count_prints_usage_witness :
    mainRun (linuxPlatform ⟨8, 0, ""⟩) "cpu_affinity" ["1", "2", "3"] =
      ⟨1, usageLines "cpu_affinity", none⟩ :=
  wrong_arg_count_prints_usage (linuxPlatform ⟨8, 0, ""⟩) "cpu_affinity"
    ["1", "2", "3"] (by decide)

/-- C4: if either of the two argument strings fails integer parsing with
std::invalid_argument, main exits 1 with no platform call, and whenever
the PID string itself is the non-integer one the invalid-argument
message plus the usage text is what reaches the error stream. -/
theorem non_integer_arg_rejected (plat : Platform) (prog arg1 arg2 : String)
    (h : stol arg1 = .error .invalidArgument ∨
         stoi arg2 = .error .invalidArgument) :
    (mainRun plat prog [arg1, arg2]).exitCode = 1 ∧
    (mainRun plat prog [arg1, arg2]).platformCall = none ∧
    (stol arg1 = .error .invalidArgument →
      (mainRun plat prog [arg1, arg2]).stderr =
        invalidArgMsg :: usageLines prog) := by
  cases h1 : stol arg1 with
  | error e =>
    rw [mainRun_err1 plat prog arg1 arg2 e h1]
    cases e with
    | invalidArgument => exact ⟨rfl, rfl, fun _ => rfl⟩
    | outOfRange =>
        refine ⟨rfl, rfl, fun hc => ?_⟩
        simp at hc
  | ok pid =>
    have h2 : stoi arg2 = .error .invalidArgument := by
      rcases h with h | h
      · rw [h1] at h; cases h
      · exact h
    rw [mainRun_err2 plat prog arg1 arg2 pid _ h1 h2]
    refine ⟨rfl, rfl, fun hc => ?_⟩
    simp at hc

/-- Witness for C4: the spec scenario args ["abc", "0"]. -/
theorem non_integer_arg_rejected_witness :
    (mainRun (linuxPlatform ⟨8, 0, ""⟩) "cpu_affinity" ["abc", "0"]).exitCode = 1 ∧
    (mainRun (linuxPlatform ⟨8, 0, ""⟩) "cpu_affinity" ["abc", "0"]).platformCall = none ∧
    (mainRun (linuxPlatform ⟨8, 0, ""⟩) "cpu_affinity" ["abc", "0"]).stderr =
      invalidArgMsg :: usageLines "cpu_affinity" := by
  have h := non_integer_arg_rejected (linuxPlatform ⟨8, 0, ""⟩) "cpu_affinity"
    "abc" "0" (Or.inl rfl)
  exact ⟨h.1, h.2.1, h.2.2 rfl⟩

/-- C2: when the reported core count N is positive and the parsed core
index lies outside [0, N), main exits 1, prints the single range
message naming the bounds 0 to N-1, and makes no platform call. -/
theorem core_out_of_range_rejected (plat : Platform) (prog arg1 arg2 : String)
    (pid core : Int) (N : Nat)
    (h1 : stol arg1 = .ok pid) (h2 : stoi arg2 = .ok core)
    (hN : plat.numCpus = N) (hpos : 0 < N)
    (hout : core < 0 ∨ (N : Int) ≤ core) :
    mainRun plat prog [arg1, arg2] = ⟨1, [coreRangeMsg core N], none⟩ ∧
    coreRangeMsg core N =
      "Error: Core ID " ++ toString core ++ " is out of range. " ++
      ("Available cores on this system: 0 to " ++ toString (N - 1) ++ ".") := by
  have hcond : 0 < plat.numCpus ∧ (core < 0 ∨ plat.numCpus ≤ core.toNat) := by
    rw [hN]; omega
  refine ⟨?_, rfl⟩
  rw [mainRun_parsed plat prog arg1 arg2 pid core h1 h2]
  unfold afterParse
  rw [if_pos hcond, hN]

/-- Witness for C2: the spec scenario args ["123", "-1"] with N = 8. -/
theorem core_out_of_range_rejected_witness :
    mainRun (linuxPlatform ⟨8, 0, ""⟩) "cpu_affinity" ["123", "-1"] =
      ⟨1, [coreRangeMsg (-1) 8], none⟩ ∧
    coreRangeMsg (-1) 8 =
      "Error: Core ID -1 is out of range. Available cores on this system: 0 to 7." := by
  have h := core_out_of_range_rejected (linuxPlatform ⟨8, 0, ""⟩) "cpu_affinity"
    "123" "-1" 123 (-1) 8 rfl (by rfl) rfl (by decide) (by decide)
  exact ⟨h.1, rfl⟩

/-- C3: a nonpositive sysconf result degrades to the sentinel 0, and
with the sentinel the bounds check is skipped: every parsed core index,
negative ones included, reaches the platform call. -/
theorem sentinel_skips_bounds_check (env : LinuxEnv) (prog arg1 arg2 : String)
    (pid core : Int)
    (h1 : stol arg1 = .ok pid) (h2 : stoi arg2 = .ok core)
    (hnp : env.nprocs ≤ 0) :
    get_hardware_concurrency env.nprocs = 0 ∧
    (mainRun (linuxPlatform env) prog [arg1, arg2]).platformCall =
      some (pid_t_cast pid, core) := by
  have hz : get_hardware_concurrency env.nprocs = 0 := by
    unfold get_hardware_concurrency
    rw [if_neg (by omega)]
  refine ⟨hz, ?_⟩
  rw [mainRun_parsed (linuxPlatform env) prog arg1 arg2 pid core h1 h2]
  have hc : ¬(0 < (linuxPlatform env).numCpus ∧
      (core < 0 ∨ (linuxPlatform env).numCpus ≤ core.toNat)) := by
    have : (linuxPlatform env).numCpus = 0 := hz
    rw [this]
    simp
  exact afterParse_platformCall (linuxPlatform env) pid core hc

/-- Witness for C3: sysconf error (-1) and a negative core index still
reach sched_setaffinity. -/
theorem sentinel_skips_bounds_check_witness :
    get_hardware_concurrency (-1) = 0 ∧
    (mainRun (linuxPlatform ⟨-1, 1, "No such process"⟩) "cpu_affinity"
        ["123", "-1"]).platformCall = some (pid_t_cast 123, -1) :=
  sentinel_skips_bounds_check ⟨-1, 1, "No such process"⟩ "cpu_affinity"
    "123" "-1" 123 (-1) rfl (by rfl) (by decide)

/-- C5: for every core index representable in the 64-bit mask word, the
Windows mask is exactly 2^core_id with exactly one bit set at position
core_id, and the Linux cpu set contains exactly the one entry
core_id. -/
theorem single_bit_affinity (core_id : Int) (h0 : 0 ≤ core_id)
    (h64 : core_id < 64) :
    win_affinity_mask core_id.toNat = 2 ^ core_id.toNat ∧
    (∀ i : Nat,
      (win_affinity_mask core_id.toNat).testBit i = true ↔ i = core_id.toNat) ∧
    (∀ x : Int, x ∈ linux_cpuset core_id ↔ x = core_id) := by
  have hlt : core_id.toNat < 64 := by omega
  have hmask : win_affinity_mask core_id.toNat = 2 ^ core_id.toNat := by
    unfold win_affinity_mask
    rw [Nat.shiftLeft_eq, one_mul]
    exact Nat.mod_eq_of_lt (Nat.pow_lt_pow_right (by norm_num) hlt)
  refine ⟨hmask, ?_, ?_⟩
  · intro i
    rw [hmask, Nat.testBit_two_pow]
    simp [eq_comm]
  · intro x
    simp [linux_cpuset, CPU_SET, CPU_ZERO]

/-- Witness for C5 at core index 3: mask bit 3 is set and the cpu set
holds 3. -/
theorem single_bit_affinity_witness :
    (win_affinity_mask ((3 : Int)).toNat).testBit 3 = true ∧
    (3 : Int) ∈ linux_cpuset 3 := by
  have h := single_bit_affinity 3 (by decide) (by decide)
  exact ⟨(h.2.1 3).mpr rfl, (h.2.2 3).mpr rfl⟩

/-- C7: an integer literal too large for long (the PID slot) or for int
(the core slot) makes main exit 1 printing the out-of-range message
(which contains the text out of range) followed by the usage text, with
no platform call. -/
theorem overflow_literal_rejected (plat : Platform) (prog arg1 arg2 : String)
    (h : stol arg1 = .error .outOfRange ∨
         ((∃ v, stol arg1 = .ok v) ∧ stoi arg2 = .error .outOfRange)) :
    mainRun plat prog [arg1, arg2] = ⟨1, outOfRangeMsg :: usageLines prog, none⟩ ∧
    strHas outOfRangeMsg "out of range" = true := by
  refine ⟨?_, by decide⟩
  rcases h with h | ⟨⟨v, hv⟩, h2⟩
  · rw [mainRun_err1 plat prog arg1 arg2 _ h]; rfl
  · rw [mainRun_err2 plat prog arg1 arg2 v _ hv h2]; rfl

/-- Witness for C7: a 20-digit literal exceeds the 64-bit long range. -/
theorem overflow_literal_rejected_witness :
    mainRun (linuxPlatform ⟨8, 0, ""⟩) "cpu_affinity"
        ["99999999999999999999", "0"] =
      ⟨1, outOfRangeMsg :: usageLines "cpu_affinity", none⟩ ∧
    strHas outOfRangeMsg "out of range" = true :=
  overflow_literal_rejected (linuxPlatform ⟨8, 0, ""⟩) "cpu_affinity"
    "99999999999999999999" "0" (Or.inl (by rfl))

/-- C8: on the Windows variant, whenever OpenProcess succeeded the
handle is closed exactly once, both when SetProcessAffinityMask is
rejected and on the success path. -/
theorem handle_released_once (env : WinEnv) (pid core_id : Int)
    (h : env.openOk = true) :
    (win_set_process_affinity env pid core_id).2 = 1 := by
  unfold win_set_process_affinity
  rw [h]
  simp only [Bool.true_eq_false, if_false]
  split <;> rfl

/-- Witness for C8: the failure path of SetProcessAffinityMask still
closes the handle once. -/
theorem handle_released_once_witness :
    (win_set_process_affinity ⟨8, true, 0, false, 5⟩ 7 3).2 = 1 :=
  handle_released_once ⟨8, true, 0, false, 5⟩ 7 3 rfl

/-- C10: every parsing failure, invalid text and out-of-range literal
alike, prints the full usage text right after its one-line error
message. -/
theorem parse_failure_prints_usage (plat : Platform) (prog arg1 arg2 : String)
    (h : (∃ e, stol arg1 = .error e) ∨
         ((∃ v, stol arg1 = .ok v) ∧ ∃ e, stoi arg2 = .error e)) :
    (mainRun plat prog [arg1, arg2]).exitCode = 1 ∧
    ((mainRun plat prog [arg1, arg2]).stderr =
        invalidArgMsg :: usageLines prog ∨
     (mainRun plat prog [arg1, arg2]).stderr =
        outOfRangeMsg :: usageLines prog) := by
  rcases h with ⟨e, he⟩ | ⟨⟨v, hv⟩, e, he⟩
  · rw [mainRun_err1 plat prog arg1 arg2 e he]
    cases e
    · exact ⟨rfl, Or.inl rfl⟩
    · exact ⟨rfl, Or.inr rfl⟩
  · rw [mainRun_err2 plat prog arg1 arg2 v e hv he]
    cases e
    · exact ⟨rfl, Or.inl rfl⟩
    · exact ⟨rfl, Or.inr rfl⟩

/-- Witness for C10 at a non-integer PID string. -/
theorem parse_failure_prints_usage_witness :
    (mainRun (linuxPlatform ⟨8, 0, ""⟩) "cpu_affinity" ["foo", "0"]).exitCode = 1 ∧
    ((mainRun (linuxPlatform ⟨8, 0, ""⟩) "cpu_affinity" ["foo", "0"]).stderr =
        invalidArgMsg :: usageLines "cpu_affinity" ∨
     (mainRun (linuxPlatform ⟨8, 0, ""⟩) "cpu_affinity" ["foo", "0"]).stderr =
        outOfRangeMsg :: usageLines "cpu_affinity") :=
  parse_failure_prints_usage (linuxPlatform ⟨8, 0, ""⟩) "cpu_affinity"
    "foo" "0" (Or.inl ⟨.invalidArgument, rfl⟩)

/-- C1 evidence: the PID 4294967296 = 2^32 parses as a long, is never
rejected, and reaches sched_setaffinity truncated to pid 0 by the
implicit long-to-pid_t conversion; likewise PID -1 reaches the Windows
call sign-changed to 4294967295 by the long-to-unsigned-long
conversion. -/
theorem pid_truncated_at_platform_call :
    stol "4294967296" = .ok 4294967296 ∧
    (mainRun (linuxPlatform ⟨8, 0, "x"⟩) "cpu_affinity"
        ["4294967296", "0"]).platformCall = some (0, 0) ∧
    pid_t_cast 4294967296 = 0 ∧
    (0 : Int) ≠ 4294967296 ∧
    stol "-1" = .ok (-1) ∧
    (mainRun (winPlatform ⟨8, true, 0, true, 0⟩) "cpu_affinity"
        ["-1", "0"]).platformCall = some (4294967295, 0) ∧
    ulong_cast (-1) = 4294967295 ∧
    (4294967295 : Int) ≠ -1 := by
  refine ⟨by rfl, by rfl, by rfl, by decide, by rfl, by rfl, by rfl, by decide⟩

/-- Exhaustive case analysis of mainRun: either no platform call was
made and the exit code is 1, or the call was made and the run result is
exactly the success record (exit 0) or the catch-block record (exit 1
with the wrapped message and the privilege hint). -/
theorem mainRun_cases (plat : Platform) (prog : String) (args : List String) :
    ((mainRun plat prog args).platformCall = none ∧
      (mainRun plat prog args).exitCode = 1) ∨
    (∃ p c, (mainRun plat prog args).platformCall = some (p, c) ∧
      ((plat.call p c = .ok () ∧ mainRun plat prog args = ⟨0, [], some (p, c)⟩) ∨
       (∃ e, plat.call p c = .error e ∧
         mainRun plat prog args =
           ⟨1, [errLine e, privilegeHint], some (p, c)⟩))) := by
  rcases args with _ | ⟨a1, _ | ⟨a2, _ | ⟨a3, t⟩⟩⟩
  · exact Or.inl ⟨rfl, rfl⟩
  · exact Or.inl ⟨rfl, rfl⟩
  · cases h1 : stol a1 with
    | error e =>
      rw [mainRun_err1 plat prog a1 a2 e h1]
      cases e
      · exact Or.inl ⟨rfl, rfl⟩
      · exact Or.inl ⟨rfl, rfl⟩
    | ok pid =>
      cases h2 : stoi a2 with
      | error e =>
        rw [mainRun_err2 plat prog a1 a2 pid e h1 h2]
        cases e
        · exact Or.inl ⟨rfl, rfl⟩
        · exact Or.inl ⟨rfl, rfl⟩
      | ok core =>
        rw [mainRun_parsed plat prog a1 a2 pid core h1 h2]
        unfold afterParse
        by_cases hb : 0 < plat.numCpus ∧ (core < 0 ∨ plat.numCpus ≤ core.toNat)
        · rw [if_pos hb]
          exact Or.inl ⟨rfl, rfl⟩
        · rw [if_neg hb]
          cases hc : plat.call (plat.pidCast pid) core with
          | ok u =>
            cases u
            exact Or.inr ⟨plat.pidCast pid, core, rfl, Or.inl ⟨hc, rfl⟩⟩
          | error e =>
            exact Or.inr ⟨plat.pidCast pid, core, rfl, Or.inr ⟨e, hc, rfl⟩⟩
  · exact Or.inl ⟨rfl, rfl⟩

/-- C9: main exits 0 exactly when the platform affinity call was made
and succeeded; every thrown platform error is reported with exit code 1,
the wrapped what()-text, and the privilege hint; and each variant throws
with the underlying platform diagnostic embedded in its message
(strerror text on Linux, GetLastError codes on Windows, the fixed text
on an unsupported platform). -/
theorem exit_zero_iff_affinity_set (plat : Platform) (prog : String)
    (args : List String) :
    (((mainRun plat prog args).exitCode = 0) ↔
      (∃ p c, (mainRun plat prog args).platformCall = some (p, c) ∧
        plat.call p c = .ok ())) ∧
    (∀ p c e, (mainRun plat prog args).platformCall = some (p, c) →
      plat.call p c = .error e →
      (mainRun plat prog args).exitCode = 1 ∧
      errLine e ∈ (mainRun plat prog args).stderr ∧
      privilegeHint ∈ (mainRun plat prog args).stderr) ∧
    (∀ (env : LinuxEnv) (p c : Int), env.schedResult ≠ 0 →
      linux_set_process_affinity env p c =
        .error ("sched_setaffinity failed: " ++ env.errnoText)) ∧
    (∀ (env : WinEnv) (p c : Int), env.openOk = false →
      (win_set_process_affinity env p c).1 =
        .error ("Could not open process with PID " ++ toString p ++
                ". Error code: " ++ toString env.openErrCode)) ∧
    (∀ (env : WinEnv) (p c : Int), env.openOk = true → env.setOk = false →
      (win_set_process_affinity env p c).1 =
        .error ("Failed to set process affinity mask. Error code: " ++
                toString env.setErrCode)) ∧
    (∀ p c : Int, unsupported_set_process_affinity p c =
      .error "Unsupported operating system.") := by
  refine ⟨?_, ?_, ?_, ?_, ?_, fun p c => rfl⟩
  · rcases mainRun_cases plat prog args with ⟨hn, he⟩ | ⟨p, c, hp, hok | ⟨e, herr, hres⟩⟩
    · constructor
      · intro h0
        rw [he] at h0
        cases h0
      · rintro ⟨p, c, hp, -⟩
        rw [hn] at hp
        cases hp
    · rw [hok.2]
      exact ⟨fun _ => ⟨p, c, rfl, hok.1⟩, fun _ => rfl⟩
    · rw [hres]
      constructor
      · intro h0
        cases h0
      · rintro ⟨p2, c2, hp2, hok2⟩
        cases hp2
        rw [herr] at hok2
        cases hok2
  · intro p c e hp hc
    rcases mainRun_cases plat prog args with ⟨hn, he⟩ | ⟨p2, c2, hp2, hok | ⟨e2, herr, hres⟩⟩
    · rw [hn] at hp
      cases hp
    · rw [hp2] at hp
      cases hp
      rw [hok.1] at hc
      cases hc
    · rw [hp2] at hp
      cases hp
      rw [herr] at hc
      cases hc
      rw [hres]
      exact ⟨rfl, List.mem_cons_self _ _, List.mem_cons_of_mem _ (List.mem_cons_self _ _)⟩
  · intro env p c hne
    unfold linux_set_process_affinity
    rw [if_pos hne]
  · intro env p c hopen
    unfold win_set_process_affinity
    rw [if_pos hopen]
  · intro env p c hopen hset
    unfold win_set_process_affinity
    rw [hopen, hset]
    simp only [Bool.true_eq_false, if_false, if_pos]

/-- Witness for C9: a failing sched_setaffinity yields exit 1, the
wrapped strerror message, and the privilege hint. -/
theorem exit_zero_iff_affinity_set_witness :
    (mainRun (linuxPlatform ⟨4, 1, "Operation not permitted"⟩) "cpu_affinity"
        ["55", "2"]).exitCode = 1 ∧
    errLine "sched_setaffinity failed: Operation not permitted" ∈
      (mainRun (linuxPlatform ⟨4, 1, "Operation not permitted"⟩) "cpu_affinity"
        ["55", "2"]).stderr ∧
    privilegeHint ∈
      (mainRun (linuxPlatform ⟨4, 1, "Operation not permitted"⟩) "cpu_affinity"
        ["55", "2"]).stderr := by
  have h := exit_zero_iff_affinity_set
    (linuxPlatform ⟨4, 1, "Operation not permitted"⟩) "cpu_affinity" ["55", "2"]
  exact h.2.1 55 2 "sched_setaffinity failed: Operation not permitted"
    (by rfl) (by rfl)

end AffinityTool
